import Mathlib

/-
  Shallow embedding of the prediction resolution pipeline of
  backend/api/app/services/ml_service.py (class MLService), together with the
  cache semantics of cache_service.py that the pipeline relies on.

  Modelling conventions:
  * Python dicts with string keys are association lists `List (String × Value)`
    in insertion order; `dict.get`, `dict[...]` and `sorted(d.items())` are
    modelled by `lookup`, `getKeyE` and `sortItems` below.
  * Real-valued arithmetic is modelled exactly over `ℚ`; all the constants the
    claims mention are decimal literals far from every branch threshold, so the
    float/rational distinction does not affect any branch taken.
  * `pd.to_datetime` is modelled abstractly: a `Value.time` payload parses, any
    other value is treated as unparseable.  No claim depends on which other
    values pandas would coerce.
  * Exceptions are modelled with `Except String`; a Python `try/except` block
    becomes a total function matching on the `Except` result of its body.
  * `random.random() < 0.1`, `random.choice([-1, 1])` and
    `random.choice([0, 1, 2, 2, 3])` are modelled as explicit draws in `Rand`,
    supplied by the caller of one prediction.
  * The redis cache is a list of (key, result, expiry) entries read through
    `cacheGet`/`cacheSet`; time is a natural number of seconds.  `setex`
    overwriting is modelled by prepending, with lookup taking the newest entry.
  * The wall-clock `timestamp` field of the result dict is not modelled; no
    claim concerns it.  The source field `deficit_ratio` is carried in the
    result field `deficitR`.
-/

namespace LoadShed

/-- Hour / day-of-week / month triple extracted from a parsed timestamp
(`dt.hour`, `dt.dayofweek`, `dt.month` in the source). -/
structure PyTime where
  hour : ℕ
  dayofweek : ℕ
  month : ℕ
deriving DecidableEq

/-- A loosely-typed dict value: a number, a string, or a parseable timestamp. -/
inductive Value where
  | num (q : ℚ)
  | str (s : String)
  | time (t : PyTime)
deriving DecidableEq

/-- A Python dict with string keys, in insertion order (keys assumed unique,
as they are in a dict; claims that need it carry a `Nodup` hypothesis). -/
abbrev Record := List (String × Value)

/-- `d[k]`-style lookup returning the value stored under `k`, if any. -/
def lookup (d : Record) (k : String) : Option Value :=
  (List.find? (fun p => p.1 == k) d).map Prod.snd

/-- `data.get(k, default)`. -/
def getValD (d : Record) (k : String) (v : Value) : Value :=
  (lookup d k).getD v

/-- `data[k]` raising `KeyError` when the key is absent. -/
def getKeyE (d : Record) (k : String) : Except String Value :=
  match lookup d k with
  | some v => Except.ok v
  | none => Except.error ("KeyError: " ++ k)

/-- `pd.to_datetime(v)`: succeeds exactly on timestamp payloads (see the
modelling note at the top of the file). -/
def parseTime (v : Value) : Except String PyTime :=
  match v with
  | Value.time t => Except.ok t
  | _ => Except.error "to_datetime: could not parse"

/-- Numeric coercion performed implicitly by Python arithmetic; a non-numeric
operand raises `TypeError`. -/
def asNum (v : Value) : Except String ℚ :=
  match v with
  | Value.num q => Except.ok q
  | _ => Except.error "TypeError: unsupported operand type"

/-- The result dict built by `predict_loadshedding` / `_fallback_prediction`
(wall-clock `timestamp` field omitted, see modelling notes). -/
structure PredictionResult where
  predicted_stage : ℤ
  confidence_score : ℚ
  model_used : String
  features_used : Option ℕ
  deficitR : Option ℚ
  is_peak_hour : Option Bool
  errMsg : Option String
deriving DecidableEq

/-- Python `int()` on a real number: truncation toward zero. -/
def pyInt (q : ℚ) : ℤ :=
  if 0 ≤ q then ⌊q⌋ else ⌈q⌉

/-- Round-half-to-even on an exact real, as Python `round` ties are resolved. -/
def roundHalfEven (x : ℚ) : ℤ :=
  if x - ⌊x⌋ < 1 / 2 then ⌊x⌋
  else if 1 / 2 < x - ⌊x⌋ then ⌊x⌋ + 1
  else if 2 ∣ ⌊x⌋ then ⌊x⌋ else ⌊x⌋ + 1

/-- Python `round(x, nd)` on an exact real value. -/
def pyRound (nd : ℕ) (x : ℚ) : ℚ :=
  (roundHalfEven (x * 10 ^ nd) : ℚ) / 10 ^ nd

/-- `max(0, min(8, stage))` (ml_service.py line 120). -/
def clampStage (s : ℤ) : ℤ := max 0 (min 8 s)

/-- The 11 base features, in source order (ml_service.py lines 59-71). -/
def buildFeatures (d : Record) (dt : PyTime) : List Value :=
  [getValD d "temperature" (Value.num 25),
   getValD d "humidity" (Value.num 60),
   getValD d "wind_speed" (Value.num 10),
   getValD d "demand_forecast" (Value.num 30000),
   getValD d "generation_capacity" (Value.num 28000),
   getValD d "historical_avg" (Value.num (3 / 2)),
   Value.num dt.hour,
   Value.num dt.dayofweek,
   Value.num dt.month,
   Value.num (if (6 ≤ dt.hour ∧ dt.hour ≤ 10) ∨ (17 ≤ dt.hour ∧ dt.hour ≤ 21) then 1 else 0),
   Value.num (if dt.dayofweek < 5 then 1 else 0)]

/-- The hard-coded default feature vector (ml_service.py line 85). -/
def defaultFeatures : List Value :=
  [Value.num 25, Value.num 60, Value.num 10, Value.num 30000, Value.num 28000,
   Value.num (3 / 2), Value.num 12, Value.num 1, Value.num 6, Value.num 0, Value.num 1]

/-- A loaded scaling transform: `scaler.transform`, which may raise. -/
abbrev Scaler := List Value → Except String (List Value)

/-- The body of the `try` in `prepare_features` (lines 51-80): datetime
extraction, feature construction, optional scaling. -/
def prepareCore (scaler : Option Scaler) (d : Record) : Except String (List Value) := do
  let dtv ← getKeyE d "datetime"
  let dt ← parseTime dtv
  let feats := buildFeatures d dt
  match scaler with
  | some f => f feats
  | none => Except.ok feats

/-- `prepare_features` (lines 49-85): on any error return the default vector. -/
def prepare_features (scaler : Option Scaler) (d : Record) : List Value :=
  match prepareCore scaler d with
  | Except.ok v => v
  | Except.error _ => defaultFeatures

/-- A loaded predictor: `model.predict` on a feature row (already indexed by
`[0]`), and `model.predict_proba` when the attribute exists.  Either call may
raise, modelled by `Except`. -/
structure Model where
  predict : List Value → Except String ℤ
  predict_proba : Option (List Value → Except String (List ℚ))

/-- The `self.models` dict: the predictor entries, plus the entry stored under
the distinguished key `"scaler"` (which is never in `model_preferences`). -/
structure Registry where
  models : List (String × Model)
  scaler : Option Scaler

/-- `model_name in self.models` / `self.models[model_name]` for predictors. -/
def lookupModel (reg : Registry) (name : String) : Option Model :=
  (List.find? (fun p => p.1 == name) reg.models).map Prod.snd

/-- `np.max` over a probability row; raises on an empty row. -/
def listMax (l : List ℚ) : Except String ℚ :=
  match l with
  | [] => Except.error "zero-size array reduction"
  | x :: xs => Except.ok (xs.foldl max x)

/-- The body of one per-model `try` (lines 105-120): stage, raw confidence,
stage clamped to [0, 8]. -/
def modelAttempt (m : Model) (feats : List Value) : Except String (ℤ × ℚ) :=
  match m.predict_proba with
  | some pf => do
      let probs ← pf feats
      let raw ← m.predict feats
      let conf ← listMax probs
      Except.ok (clampStage raw, conf)
  | none => do
      let raw ← m.predict feats
      Except.ok (clampStage raw, 4 / 5)

/-- `model_preferences = ["xgboost", "random_forest"]` (line 101). -/
def model_preferences : List String := ["xgboost", "random_forest"]

/-- The `for model_name in model_preferences` loop (lines 103-136): first
registered model whose attempt succeeds; a failed attempt advances. -/
def tryModels (reg : Registry) (feats : List Value) : List String → Option (String × ℤ × ℚ)
  | [] => none
  | name :: rest =>
      match lookupModel reg name with
      | none => tryModels reg feats rest
      | some m =>
          match modelAttempt m feats with
          | Except.ok sc => some (name, sc)
          | Except.error _ => tryModels reg feats rest

/-- The whole model tier of the cascade. -/
def firstModelSuccess (reg : Registry) (feats : List Value) : Option (String × ℤ × ℚ) :=
  tryModels reg feats model_preferences

/-- The random draws consumed by one prediction: whether
`random.random() < 0.1` fires, whether `random.choice([-1, 1])` is `+1`, and
the index drawn by `random.choice([0, 1, 2, 2, 3])`. -/
structure Rand where
  perturb : Bool
  dirUp : Bool
  emergIdx : Fin 5
deriving DecidableEq

/-- `random.choice([0, 1, 2, 2, 3])` (line 204). -/
def emergencyChoices : List ℤ := [0, 1, 2, 2, 3]

/-- The threshold table of `_fallback_prediction` (lines 165-182): stage and
confidence as a function of the adjusted deficit fraction. -/
def ruleStage (adjusted : ℚ) : ℤ × ℚ :=
  if adjusted < 2 / 100 then (0, 85 / 100)
  else if adjusted < 5 / 100 then (1, 75 / 100)
  else if adjusted < 8 / 100 then (2, 70 / 100)
  else if adjusted < 12 / 100 then (3, 65 / 100)
  else if adjusted < 16 / 100 then (4, 60 / 100)
  else (min 8 (pyInt (adjusted * 25)), 55 / 100)

/-- The body of the `try` in `_fallback_prediction` (lines 148-182), before the
randomized perturbation: stage, confidence, raw deficit fraction, peak flag. -/
def fallbackCore (d : Record) : Except String (ℤ × ℚ × ℚ × Bool) := do
  let demandV := getValD d "demand_forecast" (Value.num 30000)
  let genV := getValD d "generation_capacity" (Value.num 28000)
  let dtv ← getKeyE d "datetime"
  let dt ← parseTime dtv
  let hour := dt.hour
  let demand ← asNum demandV
  let generation ← asNum genV
  let deficit := max 0 (demand - generation)
  let dr := if demand > 0 then deficit / demand else 0
  let isPeak : Bool := decide ((6 ≤ hour ∧ hour ≤ 10) ∨ (17 ≤ hour ∧ hour ≤ 21))
  let mult : ℚ := if isPeak then 13 / 10 else 1
  let adjusted := dr * mult
  let sc := ruleStage adjusted
  Except.ok (sc.1, sc.2, dr, isPeak)

/-- `_fallback_prediction` (lines 145-209): rule-based result with the 10%
perturbation, or the emergency fallback when the rule-based body raises. -/
def fallback_prediction (rand : Rand) (d : Record) : PredictionResult :=
  match fallbackCore d with
  | Except.ok (stage, confidence, dr, isPeak) =>
      let stage := if rand.perturb
        then max 0 (min 8 (stage + (if rand.dirUp then 1 else -1))) else stage
      let confidence := if rand.perturb then confidence * (9 / 10) else confidence
      { predicted_stage := stage
        confidence_score := pyRound 3 confidence
        model_used := "rule_based_fallback"
        features_used := none
        deficitR := some (pyRound 4 dr)
        is_peak_hour := some isPeak
        errMsg := none }
  | Except.error e =>
      { predicted_stage := emergencyChoices.getD rand.emergIdx.val 0
        confidence_score := 1 / 2
        model_used := "emergency_fallback"
        features_used := none
        deficitR := none
        is_peak_hour := none
        errMsg := some e }

/-- One cache entry: key, stored result, absolute expiry time in seconds. -/
abbrev Cache := List (String × PredictionResult × ℕ)

/-- `cache_service.get` at time `t`: the newest entry under the key, if it has
not expired.  (Stored results are non-empty dicts, hence truthy.) -/
def cacheGet (c : Cache) (t : ℕ) (k : String) : Option PredictionResult :=
  match List.find? (fun e => e.1 == k) c with
  | some e => if t < e.2.2 then some e.2.1 else none
  | none => none

/-- `cache_service.set(key, result, ttl)` at time `t` (redis `setex`). -/
def cacheSet (c : Cache) (t : ℕ) (k : String) (r : PredictionResult) (ttl : ℕ) : Cache :=
  (k, r, t + ttl) :: c

/-- `sorted(data.items())`: dict items sorted by key (keys are unique in a
dict, so tuple comparison never reaches the values). -/
def sortItems (d : Record) : List (String × Value) :=
  d.mergeSort (fun a b => a.1 ≤ b.1)

/-- A canonical rendering of one value, standing in for Python `str`. -/
def reprVal (v : Value) : String :=
  match v with
  | Value.num q => toString q.num ++ "/" ++ toString q.den
  | Value.str s => s
  | Value.time t => toString t.hour ++ ":" ++ toString t.dayofweek ++ ":" ++ toString t.month

/-- Rendering of the sorted item list, standing in for `str(sorted(...))`. -/
def reprItems (l : List (String × Value)) : String :=
  String.intercalate "," (l.map (fun p => p.1 ++ "=" ++ reprVal p.2))

/-- Line 89, `f"prediction:{hash(str(sorted(data.items())))}"`.  The builtin
`hash` is a fixed per-process function of its argument string; it is modelled
by the identity embedding of that string into the key, which preserves exactly
the property the pipeline relies on: equal canonical strings give equal keys. -/
def cache_key (d : Record) : String :=
  "prediction:" ++ reprItems (sortItems d)

/-- `predict_loadshedding` (lines 87-143) at time `t` with random draws
`rand`: cache lookup, feature preparation, model cascade with write-through
caching (TTL 300 s), rule-based / emergency fallback.  Returns the result and
the updated cache. -/
def predict_loadshedding (reg : Registry) (rand : Rand) (c : Cache) (t : ℕ)
    (d : Record) : PredictionResult × Cache :=
  let key := cache_key d
  match cacheGet c t key with
  | some r => (r, c)
  | none =>
      let feats := prepare_features reg.scaler d
      match firstModelSuccess reg feats with
      | some (name, stage, conf) =>
          let r : PredictionResult :=
            { predicted_stage := stage
              confidence_score := pyRound 3 conf
              model_used := name
              features_used := some feats.length
              deficitR := none
              is_peak_hour := none
              errMsg := none }
          (r, cacheSet c t key r 300)
      | none => (fallback_prediction rand d, c)

/-! Helper lemmas about rounding. -/

theorem roundHalfEven_mem (x : ℚ) :
    roundHalfEven x = ⌊x⌋ ∨ (roundHalfEven x = ⌊x⌋ + 1 ∧ 1 / 2 ≤ x - ⌊x⌋) := by
  unfold roundHalfEven
  split_ifs with h1 h2 h3
  · exact Or.inl rfl
  · exact Or.inr ⟨rfl, le_of_lt h2⟩
  · exact Or.inl rfl
  · exact Or.inr ⟨rfl, le_of_not_lt h1⟩

theorem roundHalfEven_nonneg {x : ℚ} (h : 0 ≤ x) : 0 ≤ roundHalfEven x := by
  have hf : (0 : ℤ) ≤ ⌊x⌋ := Int.floor_nonneg.mpr h
  rcases roundHalfEven_mem x with he | ⟨he, _⟩ <;> omega

theorem roundHalfEven_le {x : ℚ} {b : ℤ} (h : x ≤ b) : roundHalfEven x ≤ b := by
  have hfb : ⌊x⌋ ≤ b := by
    have hq : (⌊x⌋ : ℚ) ≤ (b : ℚ) := (Int.floor_le x).trans h
    exact_mod_cast hq
  rcases roundHalfEven_mem x with he | ⟨he, hr⟩
  · omega
  · have hx : (⌊x⌋ : ℚ) ≤ x - 1 / 2 := by
      have hf := Int.floor_le x
      linarith
    have hlt : (⌊x⌋ : ℚ) < (b : ℚ) := by linarith
    have : ⌊x⌋ < b := by exact_mod_cast hlt
    omega

theorem pyRound_nonneg {x : ℚ} (nd : ℕ) (h : 0 ≤ x) : 0 ≤ pyRound nd x := by
  unfold pyRound
  have h10 : (0 : ℚ) < 10 ^ nd := by positivity
  have h1 := roundHalfEven_nonneg (x := x * 10 ^ nd) (by positivity)
  have h2 : (0 : ℚ) ≤ (roundHalfEven (x * 10 ^ nd) : ℚ) := by exact_mod_cast h1
  positivity

theorem pyRound_le_one {x : ℚ} (nd : ℕ) (h : x ≤ 1) : pyRound nd x ≤ 1 := by
  unfold pyRound
  have h10 : (0 : ℚ) < 10 ^ nd := by positivity
  have hle : x * 10 ^ nd ≤ ((10 ^ nd : ℤ) : ℚ) := by
    push_cast
    nlinarith
  have hr : roundHalfEven (x * 10 ^ nd) ≤ (10 ^ nd : ℤ) := roundHalfEven_le hle
  rw [div_le_one h10]
  exact_mod_cast hr

/-! Helper lemmas about the clamp and the emergency stage choice. -/

theorem clampStage_bounds (s : ℤ) : 0 ≤ clampStage s ∧ clampStage s ≤ 8 := by
  unfold clampStage
  constructor
  · exact le_max_left 0 _
  · exact max_le (by norm_num) (min_le_left 8 s)

theorem emergencyChoice_bounds (i : Fin 5) :
    0 ≤ emergencyChoices.getD i.val 0 ∧ emergencyChoices.getD i.val 0 ≤ 8 := by
  rcases i with ⟨i, hi⟩
  interval_cases i <;> simp [emergencyChoices]

/-! Helper lemmas about the cache. -/

theorem cacheGet_none_mono {c : Cache} {k : String} {t₁ t₂ : ℕ}
    (h : cacheGet c t₁ k = none) (ht : t₁ ≤ t₂) : cacheGet c t₂ k = none := by
  unfold cacheGet at h ⊢
  cases hf : List.find? (fun e => e.1 == k) c with
  | none => rfl
  | some e =>
      simp only [hf] at h ⊢
      rcases Nat.lt_or_ge t₁ e.2.2 with h1 | h1
      · rw [if_pos h1] at h
        exact absurd h (by simp)
      · rw [if_neg (by omega : ¬ t₂ < e.2.2)]

theorem cacheGet_cacheSet_hit {c : Cache} {k : String} {r : PredictionResult}
    {t₁ t₂ ttl : ℕ} (h : t₂ < t₁ + ttl) :
    cacheGet (cacheSet c t₁ k r ttl) t₂ k = some r := by
  unfold cacheGet cacheSet
  simp [List.find?, h]

/-! Helper lemmas about the model tier. -/

theorem foldlMax_bounded {xs : List ℚ} {acc : ℚ} (ha : 0 ≤ acc ∧ acc ≤ 1)
    (hb : ∀ p ∈ xs, 0 ≤ p ∧ p ≤ 1) :
    0 ≤ xs.foldl max acc ∧ xs.foldl max acc ≤ 1 := by
  induction xs generalizing acc with
  | nil => simpa using ha
  | cons y ys ih =>
      rw [List.foldl_cons]
      refine ih ⟨le_max_of_le_left ha.1, max_le ha.2 ?_⟩ ?_
      · exact (hb y (List.mem_cons_self y ys)).2
      · exact fun p hp => hb p (List.mem_cons_of_mem _ hp)

theorem listMax_bounded {l : List ℚ} {x : ℚ}
    (h : listMax l = Except.ok x) (hb : ∀ p ∈ l, 0 ≤ p ∧ p ≤ 1) : 0 ≤ x ∧ x ≤ 1 := by
  unfold listMax at h
  cases l with
  | nil => exact absurd h (by simp)
  | cons a xs =>
      have hx : xs.foldl max a = x := by simpa using h
      have ha := hb a (List.mem_cons_self a xs)
      have := foldlMax_bounded ha (fun p hp => hb p (List.mem_cons_of_mem _ hp))
      rw [hx] at this
      exact this

theorem tryModels_some {reg : Registry} {feats : List Value} {prefs : List String}
    {name : String} {st : ℤ} {cf : ℚ}
    (h : tryModels reg feats prefs = some (name, st, cf)) :
    name ∈ prefs ∧ ∃ m, lookupModel reg name = some m ∧
      modelAttempt m feats = Except.ok (st, cf) := by
  induction prefs with
  | nil => exact absurd h (by simp [tryModels])
  | cons p rest ih =>
      rw [tryModels] at h
      cases hl : lookupModel reg p with
      | none =>
          simp only [hl] at h
          rcases ih h with ⟨hm, m, hlm, ha⟩
          exact ⟨List.mem_cons_of_mem _ hm, m, hlm, ha⟩
      | some m =>
          simp only [hl] at h
          cases ha : modelAttempt m feats with
          | ok sc =>
              simp only [ha, Option.some.injEq, Prod.mk.injEq] at h
              obtain ⟨rfl, hsc⟩ := h
              refine ⟨List.mem_cons_self p rest, m, hl, ?_⟩
              rw [ha, hsc]
          | error e =>
              simp only [ha] at h
              rcases ih h with ⟨hm, m2, hlm, ha2⟩
              exact ⟨List.mem_cons_of_mem _ hm, m2, hlm, ha2⟩

theorem modelAttempt_ok_shape {m : Model} {feats : List Value} {st : ℤ} {cf : ℚ}
    (h : modelAttempt m feats = Except.ok (st, cf)) :
    (0 ≤ st ∧ st ≤ 8) ∧
    ((m.predict_proba = none ∧ cf = 4 / 5) ∨
     (∃ pf probs, m.predict_proba = some pf ∧ pf feats = Except.ok probs ∧
        listMax probs = Except.ok cf)) := by
  unfold modelAttempt at h
  cases hp : m.predict_proba with
  | none =>
      simp only [hp] at h
      cases hr : m.predict feats with
      | ok raw =>
          simp only [hr, bind, Except.bind, Except.ok.injEq, Prod.mk.injEq] at h
          obtain ⟨h1, h2⟩ := h
          subst h1
          exact ⟨clampStage_bounds raw, Or.inl ⟨rfl, h2.symm⟩⟩
      | error e =>
          simp only [hr, bind, Except.bind] at h
          exact Except.noConfusion h
  | some pf =>
      simp only [hp] at h
      cases hq : pf feats with
      | ok probs =>
          cases hr : m.predict feats with
          | ok raw =>
              cases hc : listMax probs with
              | ok conf =>
                  simp only [hq, hr, hc, bind, Except.bind, Except.ok.injEq,
                    Prod.mk.injEq] at h
                  obtain ⟨h1, h2⟩ := h
                  subst h1
                  subst h2
                  exact ⟨clampStage_bounds raw, Or.inr ⟨pf, probs, rfl, hq, hc⟩⟩
              | error e =>
                  simp only [hq, hr, hc, bind, Except.bind] at h
                  exact Except.noConfusion h
          | error e =>
              simp only [hq, hr, bind, Except.bind] at h
              exact Except.noConfusion h
      | error e =>
          simp only [hq, bind, Except.bind] at h
          exact Except.noConfusion h

/-! Helper lemmas about the rule-based tier. -/

theorem pyInt_nonneg {q : ℚ} (h : 0 ≤ q) : 0 ≤ pyInt q := by
  unfold pyInt
  rw [if_pos h]
  exact Int.floor_nonneg.mpr h

theorem ruleStage_bounds {a : ℚ} (ha : 0 ≤ a) :
    (0 ≤ (ruleStage a).1 ∧ (ruleStage a).1 ≤ 8) ∧
    (0 ≤ (ruleStage a).2 ∧ (ruleStage a).2 ≤ 1) := by
  unfold ruleStage
  split_ifs with h1 h2 h3 h4 h5
  · norm_num
  · norm_num
  · norm_num
  · norm_num
  · norm_num
  · refine ⟨⟨le_min (by norm_num) (pyInt_nonneg (by positivity)), min_le_left 8 _⟩, by norm_num⟩

theorem fallbackCore_ok_shape {d : Record} {st : ℤ} {cf dr : ℚ} {pk : Bool}
    (h : fallbackCore d = Except.ok (st, cf, dr, pk)) :
    0 ≤ dr ∧ (st, cf) = ruleStage (dr * (if pk then 13 / 10 else 1)) := by
  unfold fallbackCore at h
  cases hk : getKeyE d "datetime" with
  | error e =>
      simp only [hk, bind, Except.bind] at h
      exact Except.noConfusion h
  | ok dtv =>
      cases hp2 : parseTime dtv with
      | error e =>
          simp only [hk, hp2, bind, Except.bind] at h
          exact Except.noConfusion h
      | ok dt =>
          cases hd : asNum (getValD d "demand_forecast" (Value.num 30000)) with
          | error e =>
              simp only [hk, hp2, hd, bind, Except.bind] at h
              exact Except.noConfusion h
          | ok demand =>
              cases hg : asNum (getValD d "generation_capacity" (Value.num 28000)) with
              | error e =>
                  simp only [hk, hp2, hd, hg, bind, Except.bind] at h
                  exact Except.noConfusion h
              | ok generation =>
                  simp only [hk, hp2, hd, hg, bind, Except.bind, Except.ok.injEq,
                    Prod.mk.injEq] at h
                  obtain ⟨h1, h2, h3, h4⟩ := h
                  subst h3
                  subst h4
                  constructor
                  · split_ifs with hdem
                    · exact div_nonneg (le_max_left 0 _) (le_of_lt hdem)
                    · exact le_refl 0
                  · rw [← h1, ← h2]

theorem fallbackCore_error_result {d : Record} {e : String} (rand : Rand)
    (h : fallbackCore d = Except.error e) :
    fallback_prediction rand d =
      { predicted_stage := emergencyChoices.getD rand.emergIdx.val 0
        confidence_score := 1 / 2
        model_used := "emergency_fallback"
        features_used := none
        deficitR := none
        is_peak_hour := none
        errMsg := some e } := by
  unfold fallback_prediction
  rw [h]

theorem fallback_prediction_ok_eq {d : Record} {st : ℤ} {cf dr : ℚ} {pk : Bool}
    (rand : Rand) (h : fallbackCore d = Except.ok (st, cf, dr, pk)) :
    fallback_prediction rand d =
      { predicted_stage :=
          if rand.perturb then max 0 (min 8 (st + (if rand.dirUp then 1 else -1))) else st
        confidence_score := pyRound 3 (if rand.perturb then cf * (9 / 10) else cf)
        model_used := "rule_based_fallback"
        features_used := none
        deficitR := some (pyRound 4 dr)
        is_peak_hour := some pk
        errMsg := none } := by
  unfold fallback_prediction
  rw [h]

theorem fallback_prediction_bounds (rand : Rand) (d : Record) :
    (0 ≤ (fallback_prediction rand d).predicted_stage ∧
      (fallback_prediction rand d).predicted_stage ≤ 8) ∧
    (0 ≤ (fallback_prediction rand d).confidence_score ∧
      (fallback_prediction rand d).confidence_score ≤ 1) := by
  cases hc : fallbackCore d with
  | ok q =>
      obtain ⟨st, cf, dr, pk⟩ := q
      rw [fallback_prediction_ok_eq rand hc]
      obtain ⟨hdr, hsc⟩ := fallbackCore_ok_shape hc
      have hmult : (0 : ℚ) ≤ dr * (if pk then 13 / 10 else 1) := by
        split_ifs <;> nlinarith
      have hb := ruleStage_bounds hmult
      rw [← hsc] at hb
      obtain ⟨⟨hst0, hst8⟩, hcf0, hcf1⟩ := hb
      dsimp only at hst0 hst8 hcf0 hcf1 ⊢
      constructor
      · split_ifs with hp hd
        · exact ⟨le_max_left 0 _, max_le (by norm_num) (min_le_left 8 _)⟩
        · exact ⟨le_max_left 0 _, max_le (by norm_num) (min_le_left 8 _)⟩
        · exact ⟨hst0, hst8⟩
      · have hin : 0 ≤ (if rand.perturb then cf * (9 / 10) else cf) ∧
            (if rand.perturb then cf * (9 / 10) else cf) ≤ 1 := by
          split_ifs
          · exact ⟨by nlinarith, by nlinarith⟩
          · exact ⟨hcf0, hcf1⟩
        exact ⟨pyRound_nonneg 3 hin.1, pyRound_le_one 3 hin.2⟩
  | error e =>
      rw [fallbackCore_error_result rand hc]
      exact ⟨emergencyChoice_bounds rand.emergIdx, by norm_num⟩

theorem fallback_prediction_tag (rand : Rand) (d : Record) :
    (fallback_prediction rand d).model_used = "rule_based_fallback" ∨
    (fallback_prediction rand d).model_used = "emergency_fallback" := by
  unfold fallback_prediction
  cases hc : fallbackCore d with
  | ok q =>
      obtain ⟨st, cf, dr, pk⟩ := q
      exact Or.inl rfl
  | error e => exact Or.inr rfl

/-! Case lemmas for the resolver. -/

theorem predict_of_hit {reg : Registry} {rand : Rand} {c : Cache} {t : ℕ}
    {d : Record} {r : PredictionResult} (h : cacheGet c t (cache_key d) = some r) :
    predict_loadshedding reg rand c t d = (r, c) := by
  unfold predict_loadshedding
  simp only [h]

theorem predict_of_model {reg : Registry} {rand : Rand} {c : Cache} {t : ℕ}
    {d : Record} {name : String} {st : ℤ} {cf : ℚ}
    (hm : cacheGet c t (cache_key d) = none)
    (hf : firstModelSuccess reg (prepare_features reg.scaler d) = some (name, st, cf)) :
    predict_loadshedding reg rand c t d =
      ({ predicted_stage := st
         confidence_score := pyRound 3 cf
         model_used := name
         features_used := some (prepare_features reg.scaler d).length
         deficitR := none
         is_peak_hour := none
         errMsg := none },
       cacheSet c t (cache_key d)
         { predicted_stage := st
           confidence_score := pyRound 3 cf
           model_used := name
           features_used := some (prepare_features reg.scaler d).length
           deficitR := none
           is_peak_hour := none
           errMsg := none } 300) := by
  unfold predict_loadshedding
  simp only [hm, hf]

theorem predict_of_fallback {reg : Registry} {rand : Rand} {c : Cache} {t : ℕ}
    {d : Record} (hm : cacheGet c t (cache_key d) = none)
    (hf : firstModelSuccess reg (prepare_features reg.scaler d) = none) :
    predict_loadshedding reg rand c t d = (fallback_prediction rand d, c) := by
  unfold predict_loadshedding
  simp only [hm, hf]

/-! Association-list lookup under permutation (dict semantics). -/

theorem lookup_mem {d : Record} {k : String} {v : Value}
    (h : lookup d k = some v) : (k, v) ∈ d := by
  unfold lookup at h
  cases hf : List.find? (fun p => p.1 == k) d with
  | none =>
      rw [hf] at h
      exact absurd h (by simp)
  | some p =>
      rw [hf] at h
      have hm := List.mem_of_find?_eq_some hf
      have hp := List.find?_some hf
      have hk : p.1 = k := by simpa using hp
      have hv : p.2 = v := by simpa using h
      rw [← hk, ← hv]
      simpa using hm

theorem lookup_of_mem {d : Record} {k : String} {v : Value}
    (hn : (d.map Prod.fst).Nodup) (h : (k, v) ∈ d) : lookup d k = some v := by
  induction d with
  | nil => simp at h
  | cons p rest ih =>
      rw [List.map_cons, List.nodup_cons] at hn
      rcases List.mem_cons.mp h with he | hm
      · unfold lookup
        rw [List.find?_cons_of_pos _ (by simp [← he])]
        simp [← he]
      · have hk : k ∈ rest.map Prod.fst := List.mem_map_of_mem Prod.fst hm
        have hne : (p.1 == k) = false :=
          beq_eq_false_iff_ne.mpr (fun he => hn.1 (he ▸ hk))
        unfold lookup
        simp only [List.find?, hne]
        exact ih hn.2 hm

theorem lookup_perm {d₁ d₂ : Record} (hp : d₁.Perm d₂)
    (hn : (d₁.map Prod.fst).Nodup) (k : String) : lookup d₁ k = lookup d₂ k := by
  have hn₂ : (d₂.map Prod.fst).Nodup := ((hp.map Prod.fst).nodup_iff).mp hn
  cases hl : lookup d₁ k with
  | some v => exact (lookup_of_mem hn₂ (hp.mem_iff.mp (lookup_mem hl))).symm
  | none =>
      cases hl₂ : lookup d₂ k with
      | none => rfl
      | some v =>
          have hmem : (k, v) ∈ d₁ := hp.mem_iff.mpr (lookup_mem hl₂)
          rw [lookup_of_mem hn hmem] at hl
          exact absurd hl (by simp)

/-! Congruence of the pipeline stages in the input record (two records equal
as maps are processed identically). -/

theorem getValD_congr {d₁ d₂ : Record} (h : ∀ k, lookup d₁ k = lookup d₂ k)
    (k : String) (v : Value) : getValD d₁ k v = getValD d₂ k v := by
  unfold getValD
  rw [h]

theorem getKeyE_congr {d₁ d₂ : Record} (h : ∀ k, lookup d₁ k = lookup d₂ k)
    (k : String) : getKeyE d₁ k = getKeyE d₂ k := by
  unfold getKeyE
  rw [h]

theorem buildFeatures_congr {d₁ d₂ : Record} (h : ∀ k, lookup d₁ k = lookup d₂ k)
    (dt : PyTime) : buildFeatures d₁ dt = buildFeatures d₂ dt := by
  unfold buildFeatures
  simp only [getValD_congr h]

theorem prepareCore_congr {d₁ d₂ : Record} (h : ∀ k, lookup d₁ k = lookup d₂ k)
    (scaler : Option Scaler) : prepareCore scaler d₁ = prepareCore scaler d₂ := by
  unfold prepareCore
  simp only [getKeyE_congr h, buildFeatures_congr h]

theorem prepare_features_congr {d₁ d₂ : Record} (h : ∀ k, lookup d₁ k = lookup d₂ k)
    (scaler : Option Scaler) : prepare_features scaler d₁ = prepare_features scaler d₂ := by
  unfold prepare_features
  rw [prepareCore_congr h]

theorem fallbackCore_congr {d₁ d₂ : Record} (h : ∀ k, lookup d₁ k = lookup d₂ k) :
    fallbackCore d₁ = fallbackCore d₂ := by
  unfold fallbackCore
  simp only [getValD_congr h, getKeyE_congr h]

theorem fallback_prediction_congr {d₁ d₂ : Record} (h : ∀ k, lookup d₁ k = lookup d₂ k)
    (rand : Rand) : fallback_prediction rand d₁ = fallback_prediction rand d₂ := by
  unfold fallback_prediction
  rw [fallbackCore_congr h]

/-! The canonical sorted item list of records equal as maps coincides. -/

instance : IsAntisymm (String × Value) (fun a b => a.1 < b.1) :=
  ⟨fun _ _ h₁ h₂ => absurd h₂ (lt_asymm h₁)⟩

theorem sortItems_perm_eq {d₁ d₂ : Record} (hp : d₁.Perm d₂)
    (hn : (d₁.map Prod.fst).Nodup) : sortItems d₁ = sortItems d₂ := by
  have htrans : ∀ a b c : String × Value,
      (decide (a.1 ≤ b.1)) = true → (decide (b.1 ≤ c.1)) = true →
        (decide (a.1 ≤ c.1)) = true := by
    intro a b c hab hbc
    simp only [decide_eq_true_eq] at *
    exact le_trans hab hbc
  have htot : ∀ a b : String × Value,
      ((decide (a.1 ≤ b.1)) || (decide (b.1 ≤ a.1))) = true := by
    intro a b
    simp only [Bool.or_eq_true, decide_eq_true_eq]
    exact le_total a.1 b.1
  have hperm : (sortItems d₁).Perm (sortItems d₂) :=
    ((List.mergeSort_perm d₁ _).trans hp).trans (List.mergeSort_perm d₂ _).symm
  have hsorted : ∀ d : Record, (d.map Prod.fst).Nodup →
      List.Sorted (fun a b : String × Value => a.1 < b.1) (sortItems d) := by
    intro d hnd
    have hle := List.sorted_mergeSort htrans htot d
    have hnods : ((sortItems d).map Prod.fst).Nodup :=
      (((List.mergeSort_perm d _).map Prod.fst).nodup_iff).mpr hnd
    have hne : List.Pairwise (fun a b : String × Value => a.1 ≠ b.1) (sortItems d) :=
      List.pairwise_map.mp hnods
    exact (hle.and hne).imp (fun hab =>
      lt_of_le_of_ne (by simpa using hab.1) hab.2)
  exact List.eq_of_perm_of_sorted hperm (hsorted d₁ hn)
    (hsorted d₂ (((hp.map Prod.fst).nodup_iff).mp hn))

theorem cache_key_congr {d₁ d₂ : Record} (hp : d₁.Perm d₂)
    (hn : (d₁.map Prod.fst).Nodup) : cache_key d₁ = cache_key d₂ := by
  unfold cache_key
  rw [sortItems_perm_eq hp hn]

/-! Concrete inputs and draws used by the worked examples. -/

/-- The spec's worked example at a peak hour: demand 31000 MW, generation
28000 MW, 08:00 (here on a Thursday in June; only the hour matters). -/
def peakInput : Record :=
  [("demand_forecast", Value.num 31000), ("generation_capacity", Value.num 28000),
   ("datetime", Value.time ⟨8, 3, 6⟩)]

/-- The spec's worked example off peak: same demand and generation, 02:00. -/
def offPeakInput : Record :=
  [("demand_forecast", Value.num 31000), ("generation_capacity", Value.num 28000),
   ("datetime", Value.time ⟨2, 3, 6⟩)]

/-- Draws on which the 10% perturbation does not fire. -/
def noPerturb : Rand := ⟨false, false, 0⟩

/-- Draws on which the perturbation fires and shifts the stage up by one. -/
def perturbUp : Rand := ⟨true, true, 0⟩

/-- A registry with no artifacts loaded. -/
def emptyRegistry : Registry := ⟨[], none⟩

/-- A predictor that always returns class 3 and has no `predict_proba`. -/
def constModel : Model := ⟨fun _ => Except.ok 3, none⟩

/-- A registry holding only an XGBoost predictor. -/
def oneModelRegistry : Registry := ⟨[("xgboost", constModel)], none⟩

/-- The record shape built by the API router (predictions.py lines 32-41):
the timestamp is stored under the key "date_time", not "datetime". -/
def routerInput : Record :=
  [("location", Value.str "Kigali"), ("date_time", Value.str "2024-06-15T08:00:00"),
   ("temperature", Value.num 25), ("humidity", Value.num 60),
   ("wind_speed", Value.num 10), ("demand_forecast", Value.num 31000),
   ("generation_capacity", Value.num 28000), ("historical_avg", Value.num (3 / 2))]

/-! Evaluation of the worked examples. -/

theorem fallbackCore_peakInput :
    fallbackCore peakInput = Except.ok (4, 60 / 100, 3 / 31, true) := by
  have h1 : getKeyE peakInput "datetime" = Except.ok (Value.time ⟨8, 3, 6⟩) := rfl
  have h2 : getValD peakInput "demand_forecast" (Value.num 30000) = Value.num 31000 := rfl
  have h3 : getValD peakInput "generation_capacity" (Value.num 28000) = Value.num 28000 := rfl
  unfold fallbackCore
  rw [h1, h2, h3]
  simp only [bind, Except.bind, parseTime, asNum]
  norm_num [ruleStage, sup_eq_right.mpr (by norm_num : (0 : ℚ) ≤ 31000 - 28000)]

theorem fallbackCore_offPeakInput :
    fallbackCore offPeakInput = Except.ok (3, 65 / 100, 3 / 31, false) := by
  have h1 : getKeyE offPeakInput "datetime" = Except.ok (Value.time ⟨2, 3, 6⟩) := rfl
  have h2 : getValD offPeakInput "demand_forecast" (Value.num 30000) = Value.num 31000 := rfl
  have h3 : getValD offPeakInput "generation_capacity" (Value.num 28000) = Value.num 28000 := rfl
  unfold fallbackCore
  rw [h1, h2, h3]
  simp only [bind, Except.bind, parseTime, asNum]
  norm_num [ruleStage, sup_eq_right.mpr (by norm_num : (0 : ℚ) ≤ 31000 - 28000)]

theorem pyRound_eval_dr : pyRound 4 (3 / 31) = 968 / 10000 := by
  unfold pyRound roundHalfEven
  norm_num

theorem pyRound_eval_adj : pyRound 4 (3 / 31 * (13 / 10)) = 1258 / 10000 := by
  unfold pyRound roundHalfEven
  norm_num

theorem pyRound_eval_65 : pyRound 3 (65 / 100) = 65 / 100 := by
  unfold pyRound roundHalfEven
  norm_num

theorem pyRound_eval_60 : pyRound 3 (60 / 100) = 60 / 100 := by
  unfold pyRound roundHalfEven
  norm_num

/-! Remaining small helpers. -/

theorem lookupModel_mem {reg : Registry} {name : String} {m : Model}
    (h : lookupModel reg name = some m) : (name, m) ∈ reg.models := by
  unfold lookupModel at h
  cases hf : List.find? (fun p => p.1 == name) reg.models with
  | none =>
      rw [hf] at h
      exact absurd h (by simp)
  | some p =>
      rw [hf] at h
      have hm := List.mem_of_find?_eq_some hf
      have hp := List.find?_some hf
      have hk : p.1 = name := by simpa using hp
      have hv : p.2 = m := by simpa using h
      rw [← hk, ← hv]
      simpa using hm

theorem tryModels_no_models {reg : Registry} {feats : List Value}
    (hreg : reg.models = []) (prefs : List String) :
    tryModels reg feats prefs = none := by
  induction prefs with
  | nil => rfl
  | cons p rest ih =>
      rw [tryModels]
      have hl : lookupModel reg p = none := by
        unfold lookupModel
        rw [hreg]
        rfl
      rw [hl]
      exact ih

theorem fallback_prediction_used_eq (r₁ r₂ : Rand) (d : Record) :
    (fallback_prediction r₁ d).model_used = (fallback_prediction r₂ d).model_used := by
  unfold fallback_prediction
  cases hc : fallbackCore d with
  | ok q =>
      obtain ⟨st, cf, dr, pk⟩ := q
      rfl
  | error e => rfl

/-! The claims. -/

/-- Claim C1: totality of the core.  `predict_loadshedding` is a total function
into `PredictionResult × Cache` (never an exception value); on a cache hit it
returns the cached result, otherwise the result is tagged by the strategy that
produced it (a preferred model name, the rule-based tag, or the emergency tag);
and when the model tier produces nothing and the rule-based body raises, the
failure is converted into the emergency result, which carries the error
annotation and cannot itself fail. -/
theorem claim1_total (reg : Registry) (rand : Rand) (c : Cache) (t : ℕ) (d : Record) :
    ∃ r c₂, predict_loadshedding reg rand c t d = (r, c₂) ∧
      (cacheGet c t (cache_key d) = some r ∨
        r.model_used ∈ (["xgboost", "random_forest", "rule_based_fallback",
          "emergency_fallback"] : List String)) ∧
      (∀ e, cacheGet c t (cache_key d) = none →
        firstModelSuccess reg (prepare_features reg.scaler d) = none →
        fallbackCore d = Except.error e →
        r.model_used = "emergency_fallback" ∧ r.errMsg = some e) := by
  cases hg : cacheGet c t (cache_key d) with
  | some r =>
      refine ⟨r, c, predict_of_hit hg, Or.inl rfl, ?_⟩
      intro e hnone
      exact absurd hnone (by simp)
  | none =>
      cases hf : firstModelSuccess reg (prepare_features reg.scaler d) with
      | some nsc =>
          obtain ⟨name, st, cf⟩ := nsc
          refine ⟨_, _, predict_of_model hg hf, Or.inr ?_, ?_⟩
          · have hm := (tryModels_some hf).1
            simp only [model_preferences, List.mem_cons, List.mem_singleton,
              List.not_mem_nil, or_false] at hm
            rcases hm with rfl | rfl <;> simp
          · intro e _ hnone
            exact absurd hnone (by simp)
      | none =>
          refine ⟨_, _, predict_of_fallback hg hf, Or.inr ?_, ?_⟩
          · rcases fallback_prediction_tag rand d with h | h <;> rw [h] <;> simp
          · intro e _ _ herr
            rw [fallbackCore_error_result rand herr]
            exact ⟨rfl, rfl⟩

/-- Witness for C1 at a concrete input: the router-shaped record, no models,
an empty cache. -/
theorem claim1_witness :
    ∃ r c₂, predict_loadshedding emptyRegistry noPerturb [] 0 routerInput = (r, c₂) ∧
      (cacheGet [] 0 (cache_key routerInput) = some r ∨
        r.model_used ∈ (["xgboost", "random_forest", "rule_based_fallback",
          "emergency_fallback"] : List String)) ∧
      (∀ e, cacheGet [] 0 (cache_key routerInput) = none →
        firstModelSuccess emptyRegistry
          (prepare_features emptyRegistry.scaler routerInput) = none →
        fallbackCore routerInput = Except.error e →
        r.model_used = "emergency_fallback" ∧ r.errMsg = some e) :=
  claim1_total emptyRegistry noPerturb [] 0 routerInput

/-- Claim C5: output bounds.  On a cache miss, on every cascade path — model
success (assuming the model's class probabilities lie in [0, 1]), rule-based
fallback with or without perturbation, and emergency fallback even on entirely
malformed inputs — the returned result has `predicted_stage ∈ [0, 8]` and
`confidence_score ∈ [0, 1]`. -/
theorem claim5_bounds (reg : Registry) (rand : Rand) (c : Cache) (t : ℕ) (d : Record)
    (hmiss : cacheGet c t (cache_key d) = none)
    (hprobas : ∀ name m, (name, m) ∈ reg.models → ∀ pf, m.predict_proba = some pf →
      ∀ feats probs, pf feats = Except.ok probs → ∀ p ∈ probs, 0 ≤ p ∧ p ≤ 1) :
    (0 ≤ (predict_loadshedding reg rand c t d).1.predicted_stage ∧
      (predict_loadshedding reg rand c t d).1.predicted_stage ≤ 8) ∧
    (0 ≤ (predict_loadshedding reg rand c t d).1.confidence_score ∧
      (predict_loadshedding reg rand c t d).1.confidence_score ≤ 1) := by
  cases hf : firstModelSuccess reg (prepare_features reg.scaler d) with
  | some nsc =>
      obtain ⟨name, st, cf⟩ := nsc
      rw [predict_of_model hmiss hf]
      obtain ⟨hm, m, hlm, ha⟩ := tryModels_some hf
      obtain ⟨⟨hst0, hst8⟩, hshape⟩ := modelAttempt_ok_shape ha
      have hcf : 0 ≤ cf ∧ cf ≤ 1 := by
        rcases hshape with ⟨-, rfl⟩ | ⟨pf, probs, hpf, hfe, hlmax⟩
        · norm_num
        · exact listMax_bounded hlmax
            (hprobas name m (lookupModel_mem hlm) pf hpf _ probs hfe)
      exact ⟨⟨hst0, hst8⟩, pyRound_nonneg 3 hcf.1, pyRound_le_one 3 hcf.2⟩
  | none =>
      rw [predict_of_fallback hmiss hf]
      exact fallback_prediction_bounds rand d

/-- A record that is malformed for the estimator: non-numeric demand and no
timestamp at all. -/
def malformedInput : Record := [("demand_forecast", Value.str "oops")]

/-- Witness for C5 at a concrete input: entirely malformed record, no models,
empty cache — the emergency path, and the bounds still hold. -/
theorem claim5_witness :
    cacheGet [] 0 (cache_key malformedInput) = none ∧
    ((0 ≤ (predict_loadshedding emptyRegistry noPerturb [] 0 malformedInput).1.predicted_stage ∧
      (predict_loadshedding emptyRegistry noPerturb [] 0 malformedInput).1.predicted_stage ≤ 8) ∧
     (0 ≤ (predict_loadshedding emptyRegistry noPerturb [] 0 malformedInput).1.confidence_score ∧
      (predict_loadshedding emptyRegistry noPerturb [] 0 malformedInput).1.confidence_score ≤ 1)) :=
  ⟨rfl, claim5_bounds emptyRegistry noPerturb [] 0 malformedInput rfl
    (fun _ _ hm => absurd hm (List.not_mem_nil _))⟩

/-- Claim C6: model-success postcondition.  On a cache miss, whenever the model
tier succeeds, the result is tagged with the succeeding model's name (from the
preference order), its stage is the clamped model output (hence in [0, 8]), its
confidence is the rounded maximum class probability when `predict_proba` exists
and 0.8 otherwise, it records the feature count, and it is written to the cache
under the input's fingerprint key with TTL 300 before being returned. -/
theorem claim6_model_success (reg : Registry) (rand : Rand) (c : Cache) (t : ℕ)
    (d : Record) (name : String) (st : ℤ) (cf : ℚ)
    (hmiss : cacheGet c t (cache_key d) = none)
    (hf : firstModelSuccess reg (prepare_features reg.scaler d) = some (name, st, cf)) :
    ∃ r : PredictionResult,
      predict_loadshedding reg rand c t d = (r, cacheSet c t (cache_key d) r 300) ∧
      r.model_used = name ∧ name ∈ model_preferences ∧
      r.predicted_stage = st ∧ 0 ≤ st ∧ st ≤ 8 ∧
      r.confidence_score = pyRound 3 cf ∧
      r.features_used = some (prepare_features reg.scaler d).length ∧
      ∃ m, lookupModel reg name = some m ∧
        modelAttempt m (prepare_features reg.scaler d) = Except.ok (st, cf) ∧
        ((m.predict_proba = none ∧ cf = 4 / 5) ∨
         (∃ pf probs, m.predict_proba = some pf ∧
            pf (prepare_features reg.scaler d) = Except.ok probs ∧
            listMax probs = Except.ok cf)) := by
  obtain ⟨hm, m, hlm, ha⟩ := tryModels_some hf
  obtain ⟨⟨hst0, hst8⟩, hshape⟩ := modelAttempt_ok_shape ha
  exact ⟨_, predict_of_model hmiss hf, rfl, hm, rfl, hst0, hst8, rfl, rfl,
    m, hlm, ha, hshape⟩

/-- Witness for C6 at a concrete input: a registry holding one XGBoost
predictor that returns class 3 without probability support. -/
theorem claim6_witness :
    cacheGet [] 0 (cache_key peakInput) = none ∧
    firstModelSuccess oneModelRegistry
      (prepare_features oneModelRegistry.scaler peakInput) = some ("xgboost", 3, 4 / 5) ∧
    (∃ r : PredictionResult,
      predict_loadshedding oneModelRegistry noPerturb [] 0 peakInput =
        (r, cacheSet [] 0 (cache_key peakInput) r 300) ∧
      r.model_used = "xgboost" ∧ "xgboost" ∈ model_preferences ∧
      r.predicted_stage = 3 ∧ (0 : ℤ) ≤ 3 ∧ (3 : ℤ) ≤ 8 ∧
      r.confidence_score = pyRound 3 (4 / 5) ∧
      r.features_used = some (prepare_features oneModelRegistry.scaler peakInput).length ∧
      ∃ m, lookupModel oneModelRegistry "xgboost" = some m ∧
        modelAttempt m (prepare_features oneModelRegistry.scaler peakInput) =
          Except.ok (3, 4 / 5) ∧
        ((m.predict_proba = none ∧ (4 / 5 : ℚ) = 4 / 5) ∨
         (∃ pf probs, m.predict_proba = some pf ∧
            pf (prepare_features oneModelRegistry.scaler peakInput) = Except.ok probs ∧
            listMax probs = Except.ok (4 / 5 : ℚ)))) :=
  ⟨rfl, rfl, claim6_model_success oneModelRegistry noPerturb [] 0 peakInput
    "xgboost" 3 (4 / 5) rfl rfl⟩

/-- Claim C7: cascade correctness without models.  If the registry holds no
predictors and the cache lookup misses, the result's `model_used` is never a
model name: it is `rule_based_fallback` or `emergency_fallback`. -/
theorem claim7_no_models (reg : Registry) (rand : Rand) (c : Cache) (t : ℕ)
    (d : Record) (hreg : reg.models = [])
    (hmiss : cacheGet c t (cache_key d) = none) :
    (predict_loadshedding reg rand c t d).1.model_used = "rule_based_fallback" ∨
    (predict_loadshedding reg rand c t d).1.model_used = "emergency_fallback" := by
  have hf : firstModelSuccess reg (prepare_features reg.scaler d) = none :=
    tryModels_no_models hreg model_preferences
  rw [predict_of_fallback hmiss hf]
  exact fallback_prediction_tag rand d

/-- Witness for C7 at a concrete input. -/
theorem claim7_witness :
    emptyRegistry.models = [] ∧ cacheGet [] 0 (cache_key peakInput) = none ∧
    ((predict_loadshedding emptyRegistry noPerturb [] 0 peakInput).1.model_used =
        "rule_based_fallback" ∨
     (predict_loadshedding emptyRegistry noPerturb [] 0 peakInput).1.model_used =
        "emergency_fallback") :=
  ⟨rfl, rfl, claim7_no_models emptyRegistry noPerturb [] 0 peakInput rfl rfl⟩

/-- Claim C8: feature-extraction failure recovery.  If the body of
`prepare_features` fails for any reason (missing/unparseable timestamp, or a
failing registered scaling transform), the hard-coded neutral default vector is
returned instead of raising; and, provided the scaling transform preserves the
row length (as sklearn transforms do), every caller receives a well-formed
11-element vector. -/
theorem claim8_feature_default (scaler : Option Scaler) (d : Record)
    (hlen : ∀ f xs ys, scaler = some f → f xs = Except.ok ys → ys.length = xs.length) :
    (∀ e, prepareCore scaler d = Except.error e →
      prepare_features scaler d = defaultFeatures) ∧
    (prepare_features scaler d).length = 11 := by
  constructor
  · intro e he
    unfold prepare_features
    rw [he]
  · unfold prepare_features
    cases hp : prepareCore scaler d with
    | error e => rfl
    | ok v =>
        unfold prepareCore at hp
        cases hk : getKeyE d "datetime" with
        | error e =>
            simp only [hk, bind, Except.bind] at hp
            exact Except.noConfusion hp
        | ok dtv =>
            cases hpt : parseTime dtv with
            | error e =>
                simp only [hk, hpt, bind, Except.bind] at hp
                exact Except.noConfusion hp
            | ok dt =>
                simp only [hk, hpt, bind, Except.bind] at hp
                cases hs : scaler with
                | none =>
                    simp only [hs, Except.ok.injEq] at hp
                    dsimp only
                    rw [← hp]
                    rfl
                | some f =>
                    simp only [hs] at hp
                    dsimp only
                    rw [hlen f (buildFeatures d dt) v hs hp]
                    rfl

/-- Witness for C8 at a concrete input: no scaler registered, record with the
timestamp under the wrong key, so the core fails and the default is returned. -/
theorem claim8_witness :
    (∀ e, prepareCore none routerInput = Except.error e →
      prepare_features none routerInput = defaultFeatures) ∧
    (prepare_features none routerInput).length = 11 :=
  claim8_feature_default none routerInput
    (fun _ _ _ hf _ => Option.noConfusion hf)

/-- Claim C9: cache-key determinism and field-order insensitivity.  The cache
fingerprint is a deterministic function of the record's sorted field items:
two records equal as field-value maps (permutations of one another, with
duplicate-free keys) have the same sorted item list and hence the same cache
key, so both calls address the same cache entry. -/
theorem claim9_cache_key (d₁ d₂ : Record) (hp : d₁.Perm d₂)
    (hn : (d₁.map Prod.fst).Nodup) :
    sortItems d₁ = sortItems d₂ ∧ cache_key d₁ = cache_key d₂ :=
  ⟨sortItems_perm_eq hp hn, cache_key_congr hp hn⟩

/-- A two-field record, and the same record with its fields inserted in the
opposite order. -/
def recA : Record := [("a", Value.str "x"), ("b", Value.str "y")]

/-- See `recA`. -/
def recB : Record := [("b", Value.str "y"), ("a", Value.str "x")]

/-- Witness for C9 at a concrete input. -/
theorem claim9_witness :
    recA.Perm recB ∧ (recA.map Prod.fst).Nodup ∧
    (sortItems recA = sortItems recB ∧ cache_key recA = cache_key recB) :=
  ⟨List.Perm.swap ("b", Value.str "y") ("a", Value.str "x") [],
   by decide,
   claim9_cache_key recA recB
     (List.Perm.swap ("b", Value.str "y") ("a", Value.str "x") []) (by decide)⟩

/-- Claim C10: implicit timestamp-key edge case.  For every record lacking the
key "datetime" — in particular the router-shaped record, which stores the
timestamp under "date_time" — `prepare_features` returns the hard-coded
default vector, and the rule-based body raises a `KeyError` on the timestamp
lookup, so `_fallback_prediction` returns the emergency result with its error
annotation instead of a rule-based result. -/
theorem claim10_missing_datetime (scaler : Option Scaler) (rand : Rand) (d : Record)
    (h : lookup d "datetime" = none) :
    prepare_features scaler d = defaultFeatures ∧
    fallbackCore d = Except.error ("KeyError: " ++ "datetime") ∧
    (fallback_prediction rand d).model_used = "emergency_fallback" ∧
    (fallback_prediction rand d).errMsg = some ("KeyError: " ++ "datetime") := by
  have hk : getKeyE d "datetime" = Except.error ("KeyError: " ++ "datetime") := by
    unfold getKeyE
    rw [h]
  have hcore : fallbackCore d = Except.error ("KeyError: " ++ "datetime") := by
    unfold fallbackCore
    simp only [hk, bind, Except.bind]
  refine ⟨?_, hcore, ?_, ?_⟩
  · unfold prepare_features prepareCore
    simp only [hk, bind, Except.bind]
  · rw [fallbackCore_error_result rand hcore]
  · rw [fallbackCore_error_result rand hcore]

/-- Witness for C10 at the router-shaped record. -/
theorem claim10_witness :
    lookup routerInput "datetime" = none ∧
    (prepare_features none routerInput = defaultFeatures ∧
     fallbackCore routerInput = Except.error ("KeyError: " ++ "datetime") ∧
     (fallback_prediction noPerturb routerInput).model_used = "emergency_fallback" ∧
     (fallback_prediction noPerturb routerInput).errMsg =
       some ("KeyError: " ++ "datetime")) :=
  ⟨rfl, claim10_missing_datetime none noPerturb routerInput rfl⟩

/-- Claim C2 counterexample: on the peak worked example (demand 31000,
generation 28000, hour 8, perturbation not firing) the estimator returns
stage 4 with confidence 0.60 — not stage 3 with confidence 0.65 as the claim
states — because the adjusted value 39/310 = 0.12580... is not below the 0.12
threshold. -/
theorem claim2_cex :
    (fallback_prediction noPerturb peakInput).predicted_stage = 4 ∧
    (fallback_prediction noPerturb peakInput).confidence_score = 60 / 100 ∧
    ¬((fallback_prediction noPerturb peakInput).predicted_stage = 3 ∧
      (fallback_prediction noPerturb peakInput).confidence_score = 65 / 100) := by
  rw [fallback_prediction_ok_eq noPerturb fallbackCore_peakInput]
  refine ⟨by simp [noPerturb], by simp [noPerturb, pyRound_eval_60], ?_⟩
  intro hcl
  have h3 := hcl.1
  simp [noPerturb] at h3

/-- Claim C2 amended: on the peak worked example with no perturbation, the
deficit fraction 3/31 rounds to 0.0968 and the adjusted value 39/310 to
0.1258, and the estimator returns predicted_stage = 4 with
confidence_score = 0.60 (0.1258 falls in the [0.12, 0.16) bucket). -/
theorem claim2_amended :
    fallbackCore peakInput = Except.ok (4, 60 / 100, 3 / 31, true) ∧
    pyRound 4 (3 / 31) = 968 / 10000 ∧
    pyRound 4 (3 / 31 * (13 / 10)) = 1258 / 10000 ∧
    fallback_prediction noPerturb peakInput =
      { predicted_stage := 4
        confidence_score := 60 / 100
        model_used := "rule_based_fallback"
        features_used := none
        deficitR := some (968 / 10000)
        is_peak_hour := some true
        errMsg := none } := by
  refine ⟨fallbackCore_peakInput, pyRound_eval_dr, pyRound_eval_adj, ?_⟩
  rw [fallback_prediction_ok_eq noPerturb fallbackCore_peakInput]
  simp [noPerturb, pyRound_eval_60, pyRound_eval_dr]

/-- Claim C3 counterexample: on the off-peak worked example (demand 31000,
generation 28000, hour 2, perturbation not firing) the estimator returns
stage 3 with confidence 0.65 — not stage 2 with confidence 0.70 as the claim
states — because the adjusted value 3/31 = 0.0967... is not below the 0.08
threshold. -/
theorem claim3_cex :
    (fallback_prediction noPerturb offPeakInput).predicted_stage = 3 ∧
    (fallback_prediction noPerturb offPeakInput).confidence_score = 65 / 100 ∧
    ¬((fallback_prediction noPerturb offPeakInput).predicted_stage = 2 ∧
      (fallback_prediction noPerturb offPeakInput).confidence_score = 70 / 100) := by
  rw [fallback_prediction_ok_eq noPerturb fallbackCore_offPeakInput]
  refine ⟨by simp [noPerturb], by simp [noPerturb, pyRound_eval_65], ?_⟩
  intro hcl
  have h3 := hcl.1
  simp [noPerturb] at h3

/-- Claim C3 amended: on the off-peak worked example with no perturbation, the
adjusted value equals the deficit fraction 3/31 and rounds to 0.0968, and the
estimator returns predicted_stage = 3 with confidence_score = 0.65 (0.0968
falls in the [0.08, 0.12) bucket). -/
theorem claim3_amended :
    fallbackCore offPeakInput = Except.ok (3, 65 / 100, 3 / 31, false) ∧
    pyRound 4 (3 / 31) = 968 / 10000 ∧
    fallback_prediction noPerturb offPeakInput =
      { predicted_stage := 3
        confidence_score := 65 / 100
        model_used := "rule_based_fallback"
        features_used := none
        deficitR := some (968 / 10000)
        is_peak_hour := some false
        errMsg := none } := by
  refine ⟨fallbackCore_offPeakInput, pyRound_eval_dr, ?_⟩
  rw [fallback_prediction_ok_eq noPerturb fallbackCore_offPeakInput]
  simp [noPerturb, pyRound_eval_65, pyRound_eval_dr]

/-- Claim C4 counterexample: two sequential calls on the same input record
within the TTL (both at time 0, empty cache, no models registered) return
different `predicted_stage` values when the 10% perturbation fires on the
second call only: the rule-based path is not cached, and the perturbation
shifts the stage itself, not just the confidence. -/
theorem claim4_cex :
    (predict_loadshedding emptyRegistry noPerturb [] 0 offPeakInput).1.predicted_stage = 3 ∧
    (predict_loadshedding emptyRegistry perturbUp
        (predict_loadshedding emptyRegistry noPerturb [] 0 offPeakInput).2 0
        offPeakInput).1.predicted_stage = 4 ∧
    (predict_loadshedding emptyRegistry noPerturb [] 0 offPeakInput).1.predicted_stage ≠
      (predict_loadshedding emptyRegistry perturbUp
        (predict_loadshedding emptyRegistry noPerturb [] 0 offPeakInput).2 0
        offPeakInput).1.predicted_stage := by
  have h1 : predict_loadshedding emptyRegistry noPerturb [] 0 offPeakInput =
      (fallback_prediction noPerturb offPeakInput, []) := rfl
  have h2 : predict_loadshedding emptyRegistry perturbUp [] 0 offPeakInput =
      (fallback_prediction perturbUp offPeakInput, []) := rfl
  rw [h1]
  dsimp only
  rw [h2]
  dsimp only
  rw [fallback_prediction_ok_eq noPerturb fallbackCore_offPeakInput,
    fallback_prediction_ok_eq perturbUp fallbackCore_offPeakInput]
  refine ⟨by simp [noPerturb], by simp [perturbUp], ?_⟩
  simp [noPerturb, perturbUp]

/-- Claim C4 amended: for two sequential calls on records equal as field-value
maps (regardless of field ordering), within the cache TTL, starting from a
cache state where the key misses: `model_used` is always identical; and the
whole result — in particular `predicted_stage` and `confidence_score` — is
identical whenever the two calls consume identical random draws, which is
always the case on the model path (there the second call is a cache hit
returning the stored result unchanged).  `predicted_stage` can differ only
through the documented 10% perturbation (±1) of the uncached rule-based path
or the emergency draw. -/
theorem claim4_amended (reg : Registry) (rand₁ rand₂ : Rand) (c : Cache)
    (t₁ t₂ : ℕ) (d₁ d₂ : Record) (hp : d₁.Perm d₂)
    (hn : (d₁.map Prod.fst).Nodup)
    (hmiss : cacheGet c t₁ (cache_key d₁) = none)
    (hle : t₁ ≤ t₂) (httl : t₂ < t₁ + 300) :
    (predict_loadshedding reg rand₂
        (predict_loadshedding reg rand₁ c t₁ d₁).2 t₂ d₂).1.model_used =
      (predict_loadshedding reg rand₁ c t₁ d₁).1.model_used ∧
    (rand₁ = rand₂ →
      (predict_loadshedding reg rand₂
          (predict_loadshedding reg rand₁ c t₁ d₁).2 t₂ d₂).1 =
        (predict_loadshedding reg rand₁ c t₁ d₁).1) := by
  have hkey : cache_key d₂ = cache_key d₁ := (cache_key_congr hp hn).symm
  have hlk : ∀ k, lookup d₁ k = lookup d₂ k := lookup_perm hp hn
  cases hf : firstModelSuccess reg (prepare_features reg.scaler d₁) with
  | some nsc =>
      obtain ⟨name, st, cf⟩ := nsc
      rw [predict_of_model hmiss hf]
      dsimp only
      rw [predict_of_hit (by rw [hkey]; exact cacheGet_cacheSet_hit httl)]
      exact ⟨rfl, fun _ => rfl⟩
  | none =>
      rw [predict_of_fallback hmiss hf]
      dsimp only
      have hmiss₂ : cacheGet c t₂ (cache_key d₂) = none := by
        rw [hkey]
        exact cacheGet_none_mono hmiss hle
      have hf₂ : firstModelSuccess reg (prepare_features reg.scaler d₂) = none := by
        rw [← prepare_features_congr hlk reg.scaler]
        exact hf
      rw [predict_of_fallback hmiss₂ hf₂]
      dsimp only
      constructor
      · rw [← fallback_prediction_congr hlk rand₂]
        exact fallback_prediction_used_eq rand₂ rand₁ d₁
      · intro hr
        subst hr
        exact (fallback_prediction_congr hlk rand₁).symm

/-- Witness for the amended C4 at concrete inputs: the same two-field record
inserted in opposite orders, both calls at time 0 with the same draws. -/
theorem claim4_witness :
    recA.Perm recB ∧ (recA.map Prod.fst).Nodup ∧
    cacheGet [] 0 (cache_key recA) = none ∧ (0 : ℕ) ≤ 0 ∧ (0 : ℕ) < 0 + 300 ∧
    ((predict_loadshedding emptyRegistry noPerturb
        (predict_loadshedding emptyRegistry noPerturb [] 0 recA).2 0 recB).1.model_used =
      (predict_loadshedding emptyRegistry noPerturb [] 0 recA).1.model_used ∧
     (noPerturb = noPerturb →
      (predict_loadshedding emptyRegistry noPerturb
          (predict_loadshedding emptyRegistry noPerturb [] 0 recA).2 0 recB).1 =
        (predict_loadshedding emptyRegistry noPerturb [] 0 recA).1)) :=
  ⟨List.Perm.swap ("b", Value.str "y") ("a", Value.str "x") [], by decide, rfl,
   by decide, by decide,
   claim4_amended emptyRegistry noPerturb noPerturb [] 0 0 recA recB
     (List.Perm.swap ("b", Value.str "y") ("a", Value.str "x") []) (by decide)
     rfl (by decide) (by decide)⟩

end LoadShed
